import Mathlib

/-!
# Verification of the laundry classifier's result interpretation and event triggering

A shallow embedding of `laundry_classifier.py`: the result-interpretation
functions `process` and `process_winner`, and the per-frame counting and
notification logic of `main`. Confidence scores are modelled as rationals,
inference results as a named collection of tensors, and the Python failure
modes (failed assertions, `KeyError` on a missing tensor name, `IndexError`
on indexing an empty list) as values of an explicit error type.
-/

deriving instance DecidableEq for Except

namespace LaundryClassifier

/-- Tensor shape metadata; the code only reads its `depth` field. -/
structure Shape where
  depth : Nat
deriving Repr, DecidableEq

/-- One output tensor: a vector of confidence values plus shape metadata. -/
structure Tensor where
  data : List Rat
  shape : Shape
deriving Repr, DecidableEq

/-- One inference result: a mapping from tensor name to tensor, modelled as an
association list (the code requires it to hold exactly one tensor). -/
structure InferenceResult where
  tensors : List (String × Tensor)
deriving Repr, DecidableEq

/-- Failure modes of one frame's interpretation: the two `assert` statements,
the dictionary access `result.tensors[tensor_name]`, and `pairs[0]` on an
empty list in `process_winner`. -/
inductive ProcErr where
  | assertTensorCount
  | tensorNotFound
  | shapeMismatch
  | indexError
deriving Repr, DecidableEq

/-- Dictionary access `result.tensors[tensor_name]`. -/
def lookupTensor (result : InferenceResult) (name : String) : Option Tensor :=
  (result.tensors.find? fun p => p.1 == name).map Prod.snd

/-- Line 46 (and the identical line 58): `enumerate(probs)` filtered to pairs
whose confidence strictly exceeds the threshold. -/
def candidatePairs (probs : List Rat) (threshold : Rat) : List (Nat × Rat) :=
  probs.enum.filter fun pair => threshold < pair.2

/-- Stable insertion, placing `x` before the first element whose confidence
does not exceed `x`'s (so that among equal confidences the earlier index
stays first, matching the stability guarantee of Python's `sorted`). -/
def insertDesc (x : Nat × Rat) : List (Nat × Rat) → List (Nat × Rat)
  | [] => [x]
  | y :: ys => if y.2 ≤ x.2 then x :: y :: ys else y :: insertDesc x ys

/-- Stable sort by confidence, descending: the semantics of
`sorted(pairs, key=lambda pair: pair[1], reverse=True)` on line 47/59. -/
def sortDesc : List (Nat × Rat) → List (Nat × Rat)
  | [] => []
  | x :: xs => insertDesc x (sortDesc xs)

/-- Lines 46-47 (= lines 58-59): filter to above-threshold pairs, then sort
by confidence descending. -/
def sortedCandidates (probs : List Rat) (threshold : Rat) : List (Nat × Rat) :=
  sortDesc (candidatePairs probs threshold)

/-- `process` (lines 39-49): asserts a single tensor, looks it up by name,
asserts the depth matches the label count, filters, sorts descending,
truncates to `top_k` and resolves indices to label names. The Python code
renders each pair as the display string `' L (p)'`; the embedding keeps the
underlying (label, confidence) pair. -/
def process (result : InferenceResult) (labels : List String)
    (tensor_name : String) (threshold : Rat) (top_k : Nat) :
    Except ProcErr (List (String × Rat)) :=
  if result.tensors.length = 1 then
    match lookupTensor result tensor_name with
    | none => .error .tensorNotFound
    | some tensor =>
      if tensor.shape.depth = labels.length then
        .ok (((sortedCandidates tensor.data threshold).take top_k).map
          fun pair => (labels.getD pair.1 "", pair.2))
      else .error .shapeMismatch
  else .error .assertTensorCount

/-- `process_winner` (lines 51-62): same assertions, filter and sort, then
takes `pairs[0]` — which raises `IndexError` when nothing clears the
threshold — and returns only the winning label's name. There is no `top_k`
truncation here. -/
def process_winner (result : InferenceResult) (labels : List String)
    (tensor_name : String) (threshold : Rat) : Except ProcErr String :=
  if result.tensors.length = 1 then
    match lookupTensor result tensor_name with
    | none => .error .tensorNotFound
    | some tensor =>
      if tensor.shape.depth = labels.length then
        match sortedCandidates tensor.data threshold with
        | [] => .error .indexError
        | w :: _ => .ok (labels.getD w.1 "")
      else .error .shapeMismatch
  else .error .assertTensorCount

/-- The two loose counters initialised on lines 96-97 of `main`. -/
structure TState where
  sensing : Nat
  rinse : Nat
deriving Repr, DecidableEq

/-- `sensing = 0; rinse = 0` (lines 96-97). -/
def initState : TState := ⟨0, 0⟩

/-- One pass of the counting and firing block of the frame loop
(lines 127-161): increment the counter matching `result_winner`, then for
each counter that now equals 10 send the GET request (recorded here as the
fired label) and increment that counter once more. -/
def stepFrame (s : TState) (result_winner : String) : TState × List String :=
  let s1 := if result_winner = "sensing" then { s with sensing := s.sensing + 1 } else s
  let s2 := if result_winner = "rinse" then { s1 with rinse := s1.rinse + 1 } else s1
  let s3 := if s2.sensing = 10 then { s2 with sensing := s2.sensing + 1 } else s2
  let ev1 : List String := if s2.sensing = 10 then ["sensing"] else []
  let s4 := if s3.rinse = 10 then { s3 with rinse := s3.rinse + 1 } else s3
  let ev2 : List String := if s3.rinse = 10 then ["rinse"] else []
  (s4, ev1 ++ ev2)

/-- The frame loop driven directly by the stream of winning labels: final
counter state together with the list of notifications fired, in order. -/
def runWinners (s : TState) : List String → TState × List String
  | [] => (s, [])
  | w :: ws =>
    let step := stepFrame s w
    let rest := runWinners step.1 ws
    (rest.1, step.2 ++ rest.2)

/-- One full frame of `main`'s loop (lines 104-161): `process`, then
`process_winner`, then the counting and firing block. A failed assertion or
index error anywhere aborts the frame (and, in `main`, the whole process). -/
def mainFrame (labels : List String) (tensor_name : String) (threshold : Rat)
    (top_k : Nat) (s : TState) (result : InferenceResult) :
    Except ProcErr (TState × List String) :=
  match process result labels tensor_name threshold top_k with
  | .error e => .error e
  | .ok _ =>
    match process_winner result labels tensor_name threshold with
    | .error e => .error e
    | .ok w => .ok (stepFrame s w)

/-- The frame loop over a list of inference results. Returns the counter
state and fired notifications at the point the loop ends: normally
(`none`), or by the uncaught exception that aborted it (`some e`). -/
def runFrames (labels : List String) (tensor_name : String) (threshold : Rat)
    (top_k : Nat) (s : TState) :
    List InferenceResult → TState × List String × Option ProcErr
  | [] => (s, [], none)
  | r :: rs =>
    match mainFrame labels tensor_name threshold top_k s r with
    | .error e => (s, [], some e)
    | .ok (s1, es) =>
      let rest := runFrames labels tensor_name threshold top_k s1 rs
      (rest.1, es ++ rest.2.1, rest.2.2)

/-- One item of a Python dict literal as written in the source text: a
well-formed `key: value` entry, a bare expression (set-style element), or a
token sequence that is not parseable at all. -/
inductive CookieItem where
  | kv (key value : String)
  | bare (token : String)
  | malformed (text : String)
deriving Repr, DecidableEq

/-- Whether an item is a well-formed `key: value` dict entry. -/
def CookieItem.isKV : CookieItem → Bool
  | .kv _ _ => true
  | _ => false

/-- A brace-enclosed literal is a valid Python dict literal only if every
item is a `key: value` entry. -/
def isValidCookieDict (items : List CookieItem) : Bool :=
  items.all CookieItem.isKV

/-- The per-label notification URL (lines 142 and 154). -/
def notifyUrl (label : String) : String :=
  "https://ide-e6a85d688f984a6fa579758e98ec5d79-8080.cs50.ws/" ++ label

/-- The items of the cookie literal on line 143 (sensing branch), as
written: the third item is the malformed token sequence between quotes
`path`, `=`, `:`, `/`, and the last is the bare string `secure`. -/
def sensingCookieItems : List CookieItem :=
  [.kv "cs50_ws_dismiss_warning" "1", .kv "max-age" "5356800000",
   .malformed "path=:/", .kv "samesite" "None", .bare "secure"]

/-- The items of the cookie literal on line 156 (rinse branch), as written:
the last item is the bare string `secure` with no value. -/
def rinseCookieItems : List CookieItem :=
  [.kv "cs50_ws_dismiss_warning" "1", .kv "max-age" "5356800000",
   .kv "path" "/", .kv "samesite" "None", .bare "secure"]

end LaundryClassifier

namespace LaundryClassifier

/-! ## Concrete inputs for the reference scenarios -/

/-- The reference label set of the scenarios: `["sensing", "rinse", "idle"]`. -/
def labelsRef : List String := ["sensing", "rinse", "idle"]

/-- A frame where no confidence clears the 0.1 threshold:
the probability vector `[0.05, 0.05, 0.05]`. -/
def resultLow : InferenceResult :=
  ⟨[("result", ⟨[mkRat 1 20, mkRat 1 20, mkRat 1 20], ⟨3⟩⟩)]⟩

/-- A frame whose winner is "sensing": probabilities `[0.9, 0.05, 0.05]`. -/
def resultSensing : InferenceResult :=
  ⟨[("result", ⟨[mkRat 9 10, mkRat 1 20, mkRat 1 20], ⟨3⟩⟩)]⟩

/-- A frame with three distinct above-threshold confidences
`[0.9, 0.2, 0.5]`. -/
def resultMixed : InferenceResult :=
  ⟨[("result", ⟨[mkRat 9 10, mkRat 1 5, mkRat 1 2], ⟨3⟩⟩)]⟩

/-- A frame whose result vector has length (and depth) 2, mismatching the
three-label set. -/
def resultBad : InferenceResult :=
  ⟨[("result", ⟨[mkRat 1 2, mkRat 1 2], ⟨2⟩⟩)]⟩

/-! ## Per-step characterization of the counting and firing block -/

theorem stepFrame_sensing_win_nofire (s : TState) (h10 : s.sensing + 1 ≠ 10) :
    (stepFrame s "sensing").1.sensing = s.sensing + 1 ∧
    (stepFrame s "sensing").2.count "sensing" = 0 := by
  simp only [stepFrame]
  split_ifs <;> simp_all

theorem stepFrame_sensing_win_fire (s : TState) (h10 : s.sensing + 1 = 10) :
    (stepFrame s "sensing").1.sensing = s.sensing + 2 ∧
    (stepFrame s "sensing").2.count "sensing" = 1 := by
  simp only [stepFrame]
  split_ifs <;> simp_all

theorem stepFrame_sensing_nowin (s : TState) (w : String) (hw : w ≠ "sensing")
    (h10 : s.sensing ≠ 10) :
    (stepFrame s w).1.sensing = s.sensing ∧
    (stepFrame s w).2.count "sensing" = 0 := by
  simp only [stepFrame]
  split_ifs <;> simp_all

theorem stepFrame_rinse_win_nofire (s : TState) (h10 : s.rinse + 1 ≠ 10) :
    (stepFrame s "rinse").1.rinse = s.rinse + 1 ∧
    (stepFrame s "rinse").2.count "rinse" = 0 := by
  simp only [stepFrame]
  split_ifs <;> simp_all

theorem stepFrame_rinse_win_fire (s : TState) (h10 : s.rinse + 1 = 10) :
    (stepFrame s "rinse").1.rinse = s.rinse + 2 ∧
    (stepFrame s "rinse").2.count "rinse" = 1 := by
  simp only [stepFrame]
  split_ifs <;> simp_all

theorem stepFrame_rinse_nowin (s : TState) (w : String) (hw : w ≠ "rinse")
    (h10 : s.rinse ≠ 10) :
    (stepFrame s w).1.rinse = s.rinse ∧
    (stepFrame s w).2.count "rinse" = 0 := by
  simp only [stepFrame]
  split_ifs <;> simp_all

theorem stepFrame_mono (s : TState) (w : String) :
    s.sensing ≤ (stepFrame s w).1.sensing ∧ s.rinse ≤ (stepFrame s w).1.rinse := by
  simp only [stepFrame]
  split_ifs <;> simp <;> omega

end LaundryClassifier

namespace LaundryClassifier

/-! ## Run-level characterization of the counters and fired notifications -/

theorem runWinners_sensing_high (ws : List String) : ∀ s : TState, 11 ≤ s.sensing →
    (runWinners s ws).1.sensing = s.sensing + ws.count "sensing" ∧
    (runWinners s ws).2.count "sensing" = 0 := by
  induction ws with
  | nil => intro s _; simp [runWinners]
  | cons w ws ih =>
    intro s hs
    by_cases hw : w = "sensing"
    · subst hw
      obtain ⟨h1, h2⟩ := stepFrame_sensing_win_nofire s (by omega)
      obtain ⟨ih1, ih2⟩ := ih (stepFrame s "sensing").1 (by omega)
      simp only [runWinners, List.count_cons, List.count_append]
      refine ⟨?_, ?_⟩
      · rw [ih1, h1]; simp; omega
      · rw [h2, ih2]
    · obtain ⟨h1, h2⟩ := stepFrame_sensing_nowin s w hw (by omega)
      obtain ⟨ih1, ih2⟩ := ih (stepFrame s w).1 (by omega)
      simp only [runWinners, List.count_cons, List.count_append]
      refine ⟨?_, ?_⟩
      · rw [ih1, h1]; simp [hw]
      · rw [h2, ih2]

theorem runWinners_sensing_char (ws : List String) : ∀ s : TState, s.sensing ≤ 9 →
    (runWinners s ws).1.sensing =
      (if 10 ≤ s.sensing + ws.count "sensing" then s.sensing + ws.count "sensing" + 1
       else s.sensing + ws.count "sensing") ∧
    (runWinners s ws).2.count "sensing" =
      (if 10 ≤ s.sensing + ws.count "sensing" then 1 else 0) := by
  induction ws with
  | nil =>
    intro s hs
    simp only [runWinners, List.count_nil]
    rw [if_neg (by omega), if_neg (by omega)]
    simp
  | cons w ws ih =>
    intro s hs
    by_cases hw : w = "sensing"
    · subst hw
      by_cases h9 : s.sensing = 9
      · obtain ⟨h1, h2⟩ := stepFrame_sensing_win_fire s (by omega)
        obtain ⟨hh1, hh2⟩ := runWinners_sensing_high ws (stepFrame s "sensing").1 (by omega)
        simp only [runWinners, List.count_cons, List.count_append]
        refine ⟨?_, ?_⟩
        · rw [hh1, h1]; simp; split_ifs <;> omega
        · rw [h2, hh2]; simp; split_ifs <;> omega
      · obtain ⟨h1, h2⟩ := stepFrame_sensing_win_nofire s (by omega)
        obtain ⟨ih1, ih2⟩ := ih (stepFrame s "sensing").1 (by omega)
        simp only [runWinners, List.count_cons, List.count_append]
        refine ⟨?_, ?_⟩
        · rw [ih1, h1]; simp; split_ifs <;> omega
        · rw [h2, ih2, h1]; simp; split_ifs <;> omega
    · obtain ⟨h1, h2⟩ := stepFrame_sensing_nowin s w hw (by omega)
      obtain ⟨ih1, ih2⟩ := ih (stepFrame s w).1 (by omega)
      simp only [runWinners, List.count_cons, List.count_append]
      refine ⟨?_, ?_⟩
      · rw [ih1, h1]; simp [hw]
      · rw [h2, ih2, h1]; simp [hw]

end LaundryClassifier

namespace LaundryClassifier

theorem runWinners_rinse_high (ws : List String) : ∀ s : TState, 11 ≤ s.rinse →
    (runWinners s ws).1.rinse = s.rinse + ws.count "rinse" ∧
    (runWinners s ws).2.count "rinse" = 0 := by
  induction ws with
  | nil => intro s _; simp [runWinners]
  | cons w ws ih =>
    intro s hs
    by_cases hw : w = "rinse"
    · subst hw
      obtain ⟨h1, h2⟩ := stepFrame_rinse_win_nofire s (by omega)
      obtain ⟨ih1, ih2⟩ := ih (stepFrame s "rinse").1 (by omega)
      simp only [runWinners, List.count_cons, List.count_append]
      refine ⟨?_, ?_⟩
      · rw [ih1, h1]; simp; omega
      · rw [h2, ih2]
    · obtain ⟨h1, h2⟩ := stepFrame_rinse_nowin s w hw (by omega)
      obtain ⟨ih1, ih2⟩ := ih (stepFrame s w).1 (by omega)
      simp only [runWinners, List.count_cons, List.count_append]
      refine ⟨?_, ?_⟩
      · rw [ih1, h1]; simp [hw]
      · rw [h2, ih2]

theorem runWinners_rinse_char (ws : List String) : ∀ s : TState, s.rinse ≤ 9 →
    (runWinners s ws).1.rinse =
      (if 10 ≤ s.rinse + ws.count "rinse" then s.rinse + ws.count "rinse" + 1
       else s.rinse + ws.count "rinse") ∧
    (runWinners s ws).2.count "rinse" =
      (if 10 ≤ s.rinse + ws.count "rinse" then 1 else 0) := by
  induction ws with
  | nil =>
    intro s hs
    simp only [runWinners, List.count_nil]
    rw [if_neg (by omega), if_neg (by omega)]
    simp
  | cons w ws ih =>
    intro s hs
    by_cases hw : w = "rinse"
    · subst hw
      by_cases h9 : s.rinse = 9
      · obtain ⟨h1, h2⟩ := stepFrame_rinse_win_fire s (by omega)
        obtain ⟨hh1, hh2⟩ := runWinners_rinse_high ws (stepFrame s "rinse").1 (by omega)
        simp only [runWinners, List.count_cons, List.count_append]
        refine ⟨?_, ?_⟩
        · rw [hh1, h1]; simp; split_ifs <;> omega
        · rw [h2, hh2]; simp; split_ifs <;> omega
      · obtain ⟨h1, h2⟩ := stepFrame_rinse_win_nofire s (by omega)
        obtain ⟨ih1, ih2⟩ := ih (stepFrame s "rinse").1 (by omega)
        simp only [runWinners, List.count_cons, List.count_append]
        refine ⟨?_, ?_⟩
        · rw [ih1, h1]; simp; split_ifs <;> omega
        · rw [h2, ih2, h1]; simp; split_ifs <;> omega
    · obtain ⟨h1, h2⟩ := stepFrame_rinse_nowin s w hw (by omega)
      obtain ⟨ih1, ih2⟩ := ih (stepFrame s w).1 (by omega)
      simp only [runWinners, List.count_cons, List.count_append]
      refine ⟨?_, ?_⟩
      · rw [ih1, h1]; simp [hw]
      · rw [h2, ih2, h1]; simp [hw]

theorem runWinners_mono (ws : List String) : ∀ s : TState,
    s.sensing ≤ (runWinners s ws).1.sensing ∧ s.rinse ≤ (runWinners s ws).1.rinse := by
  induction ws with
  | nil => intro s; simp [runWinners]
  | cons w ws ih =>
    intro s
    obtain ⟨m1, m2⟩ := stepFrame_mono s w
    obtain ⟨ih1, ih2⟩ := ih (stepFrame s w).1
    simp only [runWinners]
    exact ⟨le_trans m1 ih1, le_trans m2 ih2⟩

end LaundryClassifier

namespace LaundryClassifier

/-! ## Order and membership properties of the stable descending sort -/

theorem mem_insertDesc {x a : Nat × Rat} : ∀ {l : List (Nat × Rat)},
    a ∈ insertDesc x l ↔ a = x ∨ a ∈ l := by
  intro l
  induction l with
  | nil => simp [insertDesc]
  | cons y ys ih =>
    simp only [insertDesc]
    split_ifs with hle
    · simp [List.mem_cons]
    · simp only [List.mem_cons, ih]
      tauto

theorem insertDesc_sorted {x : Nat × Rat} : ∀ {l : List (Nat × Rat)},
    (l.Pairwise fun a b => b.2 ≤ a.2) →
    (insertDesc x l).Pairwise fun a b => b.2 ≤ a.2 := by
  intro l
  induction l with
  | nil => intro _; simp [insertDesc]
  | cons y ys ih =>
    intro h
    rw [List.pairwise_cons] at h
    obtain ⟨hy, hys⟩ := h
    simp only [insertDesc]
    split_ifs with hle
    · refine List.Pairwise.cons ?_ (List.Pairwise.cons hy hys)
      intro b hb
      rcases List.mem_cons.mp hb with rfl | hb
      · exact hle
      · exact le_trans (hy b hb) hle
    · refine List.Pairwise.cons ?_ (ih hys)
      intro b hb
      rcases mem_insertDesc.mp hb with rfl | hb
      · exact le_of_lt (lt_of_not_le hle)
      · exact hy b hb

theorem mem_sortDesc {a : Nat × Rat} : ∀ {l : List (Nat × Rat)},
    a ∈ sortDesc l ↔ a ∈ l := by
  intro l
  induction l with
  | nil => simp [sortDesc]
  | cons x xs ih => simp [sortDesc, mem_insertDesc, ih]

theorem sortDesc_sorted : ∀ l : List (Nat × Rat),
    (sortDesc l).Pairwise fun a b => b.2 ≤ a.2 := by
  intro l
  induction l with
  | nil => simp [sortDesc]
  | cons x xs ih => exact insertDesc_sorted ih

theorem mem_candidatePairs_above {probs : List Rat} {threshold : Rat}
    {q : Nat × Rat} (h : q ∈ candidatePairs probs threshold) : threshold < q.2 := by
  have := (List.mem_filter.mp h).2
  exact of_decide_eq_true this

theorem enumFrom_filter_eq_nil (threshold : Rat) :
    ∀ (probs : List Rat) (k : Nat), (∀ p ∈ probs, p ≤ threshold) →
      (probs.enumFrom k).filter (fun pair => threshold < pair.2) = [] := by
  intro probs
  induction probs with
  | nil => intro k _; simp
  | cons x xs ih =>
    intro k h
    have hx : ¬ threshold < x := not_lt.mpr (h x (by simp))
    simp only [List.enumFrom, List.filter_cons]
    rw [if_neg (by simpa using hx)]
    exact ih (k + 1) fun p hp => h p (by simp [hp])

theorem candidatePairs_eq_nil {probs : List Rat} {threshold : Rat}
    (h : ∀ p ∈ probs, p ≤ threshold) : candidatePairs probs threshold = [] := by
  unfold candidatePairs List.enum
  exact enumFrom_filter_eq_nil threshold probs 0 h

end LaundryClassifier

namespace LaundryClassifier

/-! ## Shape of successful and failing interpretations -/

theorem process_ok_elim {result : InferenceResult} {labels : List String}
    {tensor_name : String} {threshold : Rat} {top_k : Nat}
    {out : List (String × Rat)}
    (h : process result labels tensor_name threshold top_k = .ok out) :
    ∃ tensor, lookupTensor result tensor_name = some tensor ∧
      result.tensors.length = 1 ∧
      tensor.shape.depth = labels.length ∧
      out = ((sortedCandidates tensor.data threshold).take top_k).map
        fun pair => (labels.getD pair.1 "", pair.2) := by
  unfold process at h
  split at h
  case isTrue h1 =>
    split at h
    case h_1 => simp at h
    case h_2 tensor heq =>
      split at h
      case isTrue h2 =>
        simp only [Except.ok.injEq] at h
        exact ⟨tensor, heq, h1, h2, h.symm⟩
      case isFalse => simp at h
  case isFalse => simp at h

theorem process_winner_ok_elim {result : InferenceResult} {labels : List String}
    {tensor_name : String} {threshold : Rat} {w : String}
    (h : process_winner result labels tensor_name threshold = .ok w) :
    ∃ tensor c cs, lookupTensor result tensor_name = some tensor ∧
      result.tensors.length = 1 ∧
      tensor.shape.depth = labels.length ∧
      sortedCandidates tensor.data threshold = c :: cs ∧
      w = labels.getD c.1 "" := by
  unfold process_winner at h
  split at h
  case isTrue h1 =>
    split at h
    case h_1 => simp at h
    case h_2 tensor heq =>
      split at h
      case isTrue h2 =>
        split at h
        case h_1 => simp at h
        case h_2 c cs hcs =>
          simp only [Except.ok.injEq] at h
          exact ⟨tensor, c, cs, heq, h1, h2, hcs, h.symm⟩
      case isFalse => simp at h
  case isFalse => simp at h

theorem lookupTensor_single {name : String} {tensor : Tensor}
    {r : InferenceResult} (hr : r.tensors = [(name, tensor)]) :
    lookupTensor r name = some tensor := by
  simp [lookupTensor, hr]

theorem process_shapeMismatch {r : InferenceResult} {labels : List String}
    {name : String} {threshold : Rat} {top_k : Nat} {tensor : Tensor}
    (hr : r.tensors = [(name, tensor)])
    (hd : tensor.shape.depth ≠ labels.length) :
    process r labels name threshold top_k = .error .shapeMismatch := by
  unfold process
  rw [lookupTensor_single hr, hr]
  simp [hd]

theorem process_nilCandidates {r : InferenceResult} {labels : List String}
    {name : String} {threshold : Rat} {top_k : Nat} {tensor : Tensor}
    (hr : r.tensors = [(name, tensor)])
    (hd : tensor.shape.depth = labels.length)
    (hnil : sortedCandidates tensor.data threshold = []) :
    process r labels name threshold top_k = .ok [] ∧
    process_winner r labels name threshold = .error .indexError := by
  constructor
  · unfold process
    rw [lookupTensor_single hr, hr]
    simp [hd, hnil]
  · unfold process_winner
    rw [lookupTensor_single hr, hr]
    simp [hd, hnil]

theorem runFrames_cons_error {labels : List String} {name : String}
    {threshold : Rat} {top_k : Nat} {s : TState} {r : InferenceResult}
    {rs : List InferenceResult} {e : ProcErr}
    (h : mainFrame labels name threshold top_k s r = .error e) :
    runFrames labels name threshold top_k s (r :: rs) = (s, [], some e) := by
  simp [runFrames, h]

end LaundryClassifier

namespace LaundryClassifier

/-! ## Claims -/

/-- C1 counterexample: after twenty consecutive winning "sensing" frames —
two completed streaks of ten — the notification has fired once, not once
per completed streak, so there is no re-firing cadence. -/
theorem c1_counterexample :
    (runWinners initState (List.replicate 20 "sensing")).2.count "sensing" = 1 ∧
    ¬ (runWinners initState (List.replicate 20 "sensing")).2.count "sensing" = 2 := by
  decide

/-- C1 amended: for each watched label the notification fires exactly once
over the whole run — on the frame where the label's counter reaches 10,
i.e. precisely when the label has won at least ten frames in total — and it
never fires again afterwards. -/
theorem c1_notify_once_when_ten_wins (ws : List String) :
    ((runWinners initState ws).2.count "sensing" =
      if 10 ≤ ws.count "sensing" then 1 else 0) ∧
    ((runWinners initState ws).2.count "rinse" =
      if 10 ≤ ws.count "rinse" then 1 else 0) := by
  have h1 := (runWinners_sensing_char ws initState (by decide)).2
  have h2 := (runWinners_rinse_char ws initState (by decide)).2
  constructor
  · simpa [initState] using h1
  · simpa [initState] using h2

/-- C2 counterexample: after ten consecutive "sensing" winner frames the
counter holds 11, not 0, and after the eleventh such frame it holds 12, not
1 — the counter is never reset after the fire. -/
theorem c2_counterexample :
    (runWinners initState (List.replicate 10 "sensing")).1.sensing = 11 ∧
    (runWinners initState (List.replicate 10 "sensing")).1.sensing ≠ 0 ∧
    (runWinners initState (List.replicate 11 "sensing")).1.sensing = 12 ∧
    (runWinners initState (List.replicate 11 "sensing")).1.sensing ≠ 1 := by
  decide

/-- C2 amended: over the label set `["sensing","rinse","idle"]` with
threshold 0.1, ten frames in a row whose winner is "sensing" produce
exactly one notify("sensing") and leave the counter at 11 (incremented past
the threshold, not reset to 0), and the eleventh consecutive "sensing"
frame brings the counter to 12 (no new streak is started at 1). -/
theorem c2_ten_sensing_frames :
    runFrames labelsRef "result" (mkRat 1 10) 3 initState
      (List.replicate 10 resultSensing) = (⟨11, 0⟩, ["sensing"], none) ∧
    runFrames labelsRef "result" (mkRat 1 10) 3 initState
      (List.replicate 11 resultSensing) = (⟨12, 0⟩, ["sensing"], none) := by
  decide

/-- C3 counterexample: on the probability vector `[0.05, 0.05, 0.05]` with
threshold 0.1, `process` (rank) returns the empty list but `process_winner`
raises `IndexError` at `pairs[0]` instead of returning a no-winner value. -/
theorem c3_counterexample :
    process resultLow labelsRef "result" (mkRat 1 10) 3 = .ok [] ∧
    process_winner resultLow labelsRef "result" (mkRat 1 10) =
      .error .indexError := by
  decide

/-- C3 amended: whenever no confidence strictly exceeds the threshold,
rank returns the empty list, but winner raises `IndexError` (there is no
distinguished no-winner value); the frame's counters are untouched only
because the exception aborts the whole loop at that frame. -/
theorem c3_below_threshold_raises (labels : List String) (name : String)
    (threshold : Rat) (top_k : Nat) (tensor : Tensor) (r : InferenceResult)
    (s : TState) (rs : List InferenceResult)
    (hr : r.tensors = [(name, tensor)])
    (hd : tensor.shape.depth = labels.length)
    (hp : ∀ p ∈ tensor.data, p ≤ threshold) :
    process r labels name threshold top_k = .ok [] ∧
    process_winner r labels name threshold = .error .indexError ∧
    runFrames labels name threshold top_k s (r :: rs) =
      (s, [], some .indexError) := by
  have hnil : sortedCandidates tensor.data threshold = [] := by
    unfold sortedCandidates
    rw [candidatePairs_eq_nil hp]
    rfl
  obtain ⟨h1, h2⟩ := process_nilCandidates hr hd hnil
  refine ⟨h1, h2, ?_⟩
  apply runFrames_cons_error
  simp [mainFrame, h1, h2]

/-- C3 witness: the amended statement at the `[0.05, 0.05, 0.05]` vector
with threshold 0.1. -/
theorem c3_witness :
    (∀ p ∈ [mkRat 1 20, mkRat 1 20, mkRat 1 20], p ≤ mkRat 1 10) ∧
    (process resultLow labelsRef "result" (mkRat 1 10) 3 = .ok [] ∧
     process_winner resultLow labelsRef "result" (mkRat 1 10) =
       .error .indexError ∧
     runFrames labelsRef "result" (mkRat 1 10) 3 initState [resultLow] =
       (initState, [], some .indexError)) :=
  ⟨by decide,
   c3_below_threshold_raises labelsRef "result" (mkRat 1 10) 3
     ⟨[mkRat 1 20, mkRat 1 20, mkRat 1 20], ⟨3⟩⟩ resultLow initState []
     (by decide) (by decide) (by decide)⟩

end LaundryClassifier

namespace LaundryClassifier

/-- C4 counterexample: the state reached after nine "sensing" wins has
counter 9, and the next "sensing" win leaves the counter at 11 — an
increase of two on that frame (the win increment plus the post-fire
increment), not exactly one. -/
theorem c4_counterexample :
    (runWinners initState (List.replicate 9 "sensing")).1 = ⟨9, 0⟩ ∧
    (stepFrame ⟨9, 0⟩ "sensing").1.sensing = 11 := by
  decide

/-- C4 amended: on a frame whose winner is a watched label L, L's counter
increases by exactly one, except on the frame where it reaches 10, where
the post-fire increment raises it by two in total; on every other frame
L's counter is unchanged, and a frame's winner never changes the counter
of the other watched label (for the states the loop can reach, whose
counters never rest at 10). -/
theorem c4_counter_increment (s : TState) (w : String)
    (hs : s.sensing ≠ 10) (hr : s.rinse ≠ 10) :
    (w ≠ "sensing" → (stepFrame s w).1.sensing = s.sensing) ∧
    (w = "sensing" → s.sensing + 1 ≠ 10 →
      (stepFrame s w).1.sensing = s.sensing + 1) ∧
    (w = "sensing" → s.sensing + 1 = 10 →
      (stepFrame s w).1.sensing = s.sensing + 2) ∧
    (w ≠ "rinse" → (stepFrame s w).1.rinse = s.rinse) ∧
    (w = "rinse" → s.rinse + 1 ≠ 10 →
      (stepFrame s w).1.rinse = s.rinse + 1) ∧
    (w = "rinse" → s.rinse + 1 = 10 →
      (stepFrame s w).1.rinse = s.rinse + 2) := by
  refine ⟨?_, ?_, ?_, ?_, ?_, ?_⟩
  · intro hw
    exact (stepFrame_sensing_nowin s w hw hs).1
  · intro hw h10
    subst hw
    exact (stepFrame_sensing_win_nofire s h10).1
  · intro hw h10
    subst hw
    exact (stepFrame_sensing_win_fire s h10).1
  · intro hw
    exact (stepFrame_rinse_nowin s w hw hr).1
  · intro hw h10
    subst hw
    exact (stepFrame_rinse_win_nofire s h10).1
  · intro hw h10
    subst hw
    exact (stepFrame_rinse_win_fire s h10).1

/-- C4 witness: the amended statement at the state (3, 0) on a "sensing"
winner frame: the sensing counter moves to 4 and the rinse counter stays
at 0. -/
theorem c4_witness :
    (TState.sensing ⟨3, 0⟩ ≠ 10 ∧ TState.rinse ⟨3, 0⟩ ≠ 10) ∧
    (stepFrame ⟨3, 0⟩ "sensing").1.sensing = 4 ∧
    (stepFrame ⟨3, 0⟩ "sensing").1.rinse = 0 :=
  ⟨by decide,
   (c4_counter_increment ⟨3, 0⟩ "sensing" (by decide) (by decide)).2.1
     rfl (by decide),
   (c4_counter_increment ⟨3, 0⟩ "sensing" (by decide) (by decide)).2.2.2.1
     (by decide)⟩

/-- C5: every successful rank result has at most `top_k` entries, every
entry's confidence strictly exceeds the threshold, and the entries are
sorted by confidence in descending order. -/
theorem c5_rank_contract (result : InferenceResult) (labels : List String)
    (tensor_name : String) (threshold : Rat) (top_k : Nat)
    (out : List (String × Rat))
    (h : process result labels tensor_name threshold top_k = .ok out) :
    out.length ≤ top_k ∧ (∀ p ∈ out, threshold < p.2) ∧
    out.Pairwise fun a b => b.2 ≤ a.2 := by
  obtain ⟨tensor, _, _, _, hout⟩ := process_ok_elim h
  subst hout
  refine ⟨?_, ?_, ?_⟩
  · rw [List.length_map]
    exact List.length_take_le _ _
  · intro p hp
    obtain ⟨q, hq, rfl⟩ := List.mem_map.mp hp
    have hq1 : q ∈ sortedCandidates tensor.data threshold :=
      List.mem_of_mem_take hq
    exact mem_candidatePairs_above (mem_sortDesc.mp hq1)
  · rw [List.pairwise_map]
    exact List.Pairwise.sublist (List.take_sublist _ _) (sortDesc_sorted _)

/-- C5 witness: rank on the vector `[0.9, 0.2, 0.5]` with threshold 0.1 and
`top_k = 2` returns the two highest-confidence labels in descending order. -/
theorem c5_witness :
    process resultMixed labelsRef "result" (mkRat 1 10) 2 =
      .ok [("sensing", mkRat 9 10), ("idle", mkRat 1 2)] ∧
    ([("sensing", mkRat 9 10), ("idle", mkRat 1 2)].length ≤ 2 ∧
     (∀ p ∈ [("sensing", mkRat 9 10), ("idle", mkRat 1 2)], mkRat 1 10 < p.2) ∧
     List.Pairwise (fun a b => b.2 ≤ a.2)
       [("sensing", mkRat 9 10), ("idle", mkRat 1 2)]) :=
  ⟨by decide,
   c5_rank_contract resultMixed labelsRef "result" (mkRat 1 10) 2
     [("sensing", mkRat 9 10), ("idle", mkRat 1 2)] (by decide)⟩

end LaundryClassifier

namespace LaundryClassifier

/-- C6 counterexample: with `top_k = 0` on the vector `[0.9, 0.05, 0.05]`
the winner is "sensing" — neither a no-winner value nor an entry of rank's
output, which is empty. -/
theorem c6_counterexample :
    process_winner resultSensing labelsRef "result" (mkRat 1 10) =
      .ok "sensing" ∧
    process resultSensing labelsRef "result" (mkRat 1 10) 0 = .ok [] ∧
    "sensing" ∉ (([] : List (String × Rat)).map Prod.fst) := by
  decide

/-- C6 amended: whenever both calls succeed and `top_k` is at least 1, the
winner equals the label of the first entry of rank's output, which has
maximal confidence among rank's entries (on an empty candidate set winner
raises instead of returning a no-winner value, and with `top_k = 0` the
winner is absent from rank's empty output). -/
theorem c6_winner_is_max_of_rank (result : InferenceResult)
    (labels : List String) (tensor_name : String) (threshold : Rat)
    (top_k : Nat) (out : List (String × Rat)) (w : String)
    (hk : 1 ≤ top_k)
    (hp : process result labels tensor_name threshold top_k = .ok out)
    (hw : process_winner result labels tensor_name threshold = .ok w) :
    ∃ p, out.head? = some p ∧ w = p.1 ∧ ∀ q ∈ out, q.2 ≤ p.2 := by
  obtain ⟨tensor, hlook, _, _, hout⟩ := process_ok_elim hp
  obtain ⟨tensor2, c, cs, hlook2, _, _, hcs, hww⟩ := process_winner_ok_elim hw
  rw [hlook] at hlook2
  have ht : tensor = tensor2 := Option.some.inj hlook2
  subst ht
  obtain ⟨n, rfl⟩ : ∃ n, top_k = n + 1 := ⟨top_k - 1, by omega⟩
  rw [hcs, List.take_succ_cons] at hout
  have hsort := sortDesc_sorted (candidatePairs tensor.data threshold)
  rw [show sortDesc (candidatePairs tensor.data threshold) =
        sortedCandidates tensor.data threshold from rfl, hcs] at hsort
  rw [List.pairwise_cons] at hsort
  obtain ⟨hc, _⟩ := hsort
  subst hout
  refine ⟨(labels.getD c.1 "", c.2), ?_, ?_, ?_⟩
  · simp
  · simpa using hww
  · intro q hq
    obtain ⟨b, hb, rfl⟩ := List.mem_map.mp hq
    rcases List.mem_cons.mp hb with rfl | hb2
    · exact le_refl _
    · exact hc b (List.mem_of_mem_take hb2)

/-- C6 witness: the amended statement on the vector `[0.9, 0.2, 0.5]` with
threshold 0.1 and `top_k = 2`: the winner "sensing" heads rank's output
and its confidence 0.9 dominates the other entry. -/
theorem c6_witness :
    (1 ≤ 2 ∧
     process resultMixed labelsRef "result" (mkRat 1 10) 2 =
       .ok [("sensing", mkRat 9 10), ("idle", mkRat 1 2)] ∧
     process_winner resultMixed labelsRef "result" (mkRat 1 10) =
       .ok "sensing") ∧
    ∃ p, [("sensing", mkRat 9 10), ("idle", mkRat 1 2)].head? = some p ∧
      "sensing" = p.1 ∧
      ∀ q ∈ [("sensing", mkRat 9 10), ("idle", mkRat 1 2)], q.2 ≤ p.2 :=
  ⟨⟨by decide, by decide, by decide⟩,
   c6_winner_is_max_of_rank resultMixed labelsRef "result" (mkRat 1 10) 2
     [("sensing", mkRat 9 10), ("idle", mkRat 1 2)] "sensing"
     (by decide) (by decide) (by decide)⟩

/-- C7 counterexample: a dimensionality-mismatch frame (vector length 2,
label set size 3) aborts the whole run with `shapeMismatch` — the
following well-formed frame, which alone would raise the sensing counter
to 1, is never processed, so the frame is not skipped and the process does
crash. -/
theorem c7_counterexample :
    runFrames labelsRef "result" (mkRat 1 10) 3 initState
      [resultBad, resultSensing] = (initState, [], some .shapeMismatch) ∧
    runFrames labelsRef "result" (mkRat 1 10) 3 initState [resultSensing] =
      (⟨1, 0⟩, [], none) := by
  decide

/-- C7 amended: a dimensionality mismatch makes the `assert` in `process`
fail, aborting the entire loop at that frame with `shapeMismatch`; the
counters are unchanged and no notification fires, but no later frame is
processed either — the frame is not skipped, the process stops. -/
theorem c7_shape_mismatch_aborts (labels : List String) (name : String)
    (threshold : Rat) (top_k : Nat) (s : TState) (tensor : Tensor)
    (r : InferenceResult) (rs : List InferenceResult)
    (hr : r.tensors = [(name, tensor)])
    (hd : tensor.shape.depth ≠ labels.length) :
    process r labels name threshold top_k = .error .shapeMismatch ∧
    runFrames labels name threshold top_k s (r :: rs) =
      (s, [], some .shapeMismatch) := by
  have h1 : process r labels name threshold top_k = .error .shapeMismatch :=
    process_shapeMismatch hr hd
  refine ⟨h1, ?_⟩
  apply runFrames_cons_error
  simp [mainFrame, h1]

/-- C7 witness: the amended statement at the length-2 vector against the
three-label set. -/
theorem c7_witness :
    (Tensor.shape ⟨[mkRat 1 2, mkRat 1 2], ⟨2⟩⟩).depth ≠ labelsRef.length ∧
    (process resultBad labelsRef "result" (mkRat 1 10) 3 =
       .error .shapeMismatch ∧
     runFrames labelsRef "result" (mkRat 1 10) 3 initState
       [resultBad, resultSensing] = (initState, [], some .shapeMismatch)) :=
  ⟨by decide,
   c7_shape_mismatch_aborts labelsRef "result" (mkRat 1 10) 3 initState
     ⟨[mkRat 1 2, mkRat 1 2], ⟨2⟩⟩ resultBad [resultSensing]
     (by decide) (by decide)⟩

/-- C8: neither firing branch can ever send the claimed cookie set — the
cookie literals of both branches (lines 143 and 156) contain items that are
not `key: value` entries (a bare `secure` token in both, and the malformed
`path` item in the sensing branch), so neither is a valid Python dict
literal; the module cannot even be parsed, and no GET request carrying
those cookies is ever made. -/
theorem c8_cookie_literals_invalid :
    isValidCookieDict sensingCookieItems = false ∧
    isValidCookieDict rinseCookieItems = false := by
  decide

/-- C9: both watched-label counters are monotone non-decreasing over any
run of the loop from any state: no frame, including one that fires a
notification, ever decreases a counter or resets it to 0. -/
theorem c9_counters_never_decrease (s : TState) (ws : List String) :
    s.sensing ≤ (runWinners s ws).1.sensing ∧
    s.rinse ≤ (runWinners s ws).1.rinse :=
  runWinners_mono ws s

/-- C10: over any run from the initial state, each watched label's
notification fires at most once: after the fire at counter value 10 the
counter is immediately incremented to 11 and only grows, so the exact
equality with 10 never recurs. -/
theorem c10_notify_at_most_once (ws : List String) :
    (runWinners initState ws).2.count "sensing" ≤ 1 ∧
    (runWinners initState ws).2.count "rinse" ≤ 1 := by
  have h1 := (runWinners_sensing_char ws initState (by decide)).2
  have h2 := (runWinners_rinse_char ws initState (by decide)).2
  constructor
  · rw [h1]
    split_ifs <;> omega
  · rw [h2]
    split_ifs <;> omega

end LaundryClassifier
